import Mathlib

/-
Verification of the chunk-based world-streaming core of the Fortune game
prototype (Rust / Bevy). The definitions below are shallow embeddings of
the Rust functions in src/src/{constants,resources,world,setup,player}.rs,
src/src/map_loader.rs and src/utils/src/main.rs; machine integers are
modelled as ℤ / ℕ (the values involved stay far below the 32/64-bit
overflow thresholds), f32 quantities are modelled as ℚ (positions only
go through exact additions, clamps, and division by the power of two
CHUNK_SIZE * TILE_SIZE = 16, all exact in f32 at the magnitudes reached).
-/

namespace Fortune

/-! ## Constants (src/src/constants.rs) -/

def CHUNK_SIZE : ℤ := 16
def MAP_WIDTH : ℤ := 256 * CHUNK_SIZE
def MAP_HEIGHT : ℤ := 256 * CHUNK_SIZE
def RENDER_DISTANCE : ℤ := 5
def TILE_SIZE : ℚ := 1

/-! ## Tile types

`TileType` of the game (src/src/resources.rs), `Utils.TileType` of the CLI
map visualizer (src/utils/src/main.rs) and `MapTileType` of the auxiliary
editor-map loader (src/src/map_loader.rs). -/

inductive TileType
  | Grass
  | Water
  | Desert
  | Stone
  | Wood
  | Unknown
deriving DecidableEq, Repr

/-- `TileType::from_u16` in src/src/resources.rs (u16 value modelled as ℕ). -/
def TileType.from_u16 (value : ℕ) : TileType :=
  match value with
  | 0 => TileType.Grass
  | 1 => TileType.Water
  | 2 => TileType.Desert
  | 3 => TileType.Stone
  | 4 => TileType.Wood
  | _ => TileType.Unknown

/-- Canonical u16 encoding of each tile type, from the discriminant comments
on the enum (`Grass, // 0` …). `Unknown` has no canonical encoding. -/
def TileType.to_u16 : TileType → Option ℕ
  | TileType.Grass => some 0
  | TileType.Water => some 1
  | TileType.Desert => some 2
  | TileType.Stone => some 3
  | TileType.Wood => some 4
  | TileType.Unknown => none

/-- A color as produced by `Color::rgb(r, g, b).as_rgba_f32()`; the decimal
literals of the source are carried exactly. -/
structure ColorRGBA where
  r : ℚ
  g : ℚ
  b : ℚ
  a : ℚ
deriving DecidableEq, Repr

/-- `TileType::get_color` in src/src/resources.rs (via COLORS in constants.rs). -/
def TileType.get_color : TileType → ColorRGBA
  | TileType.Grass => ⟨1/10, 8/10, 1/10, 1⟩
  | TileType.Water => ⟨1/10, 1/10, 8/10, 1⟩
  | TileType.Desert => ⟨8/10, 7/10, 4/10, 1⟩
  | TileType.Stone => ⟨5/10, 5/10, 5/10, 1⟩
  | TileType.Wood => ⟨6/10, 3/10, 1/10, 1⟩
  | TileType.Unknown => ⟨1, 0, 1, 1⟩

namespace Utils

/-- The CLI visualizer's private `TileType` enum (src/utils/src/main.rs). -/
inductive TileType
  | Grass
  | Water
  | Desert
  | Stone
  | Wood
  | Unknown
deriving DecidableEq, Repr

/-- `TileType::from_u16` in src/utils/src/main.rs. -/
def TileType.from_u16 (value : ℕ) : TileType :=
  match value with
  | 0 => TileType.Grass
  | 1 => TileType.Water
  | 2 => TileType.Desert
  | 3 => TileType.Stone
  | 4 => TileType.Wood
  | _ => TileType.Unknown

/-- Canonical u16 encoding, from the discriminant comments of the CLI enum. -/
def TileType.to_u16 : TileType → Option ℕ
  | TileType.Grass => some 0
  | TileType.Water => some 1
  | TileType.Desert => some 2
  | TileType.Stone => some 3
  | TileType.Wood => some 4
  | TileType.Unknown => none

end Utils

/-! ## The auxiliary editor-map loader (src/src/map_loader.rs) -/

def MAP_SIZE : ℕ := 4096

/-- `MapTileType` in src/src/map_loader.rs; note it has no Unknown variant. -/
inductive MapTileType
  | Grass
  | Desert
  | Water
  | Rock
  | Sand
deriving DecidableEq, Repr

/-- `MapTileType::from_u16` in src/src/map_loader.rs; the catch-all arm
returns `Grass`, not an Unknown fallback. -/
def MapTileType.from_u16 (value : ℕ) : MapTileType :=
  match value with
  | 0 => MapTileType.Grass
  | 1 => MapTileType.Desert
  | 2 => MapTileType.Water
  | 3 => MapTileType.Rock
  | 4 => MapTileType.Sand
  | _ => MapTileType.Grass

/-- The `repr(u16)` discriminants of `MapTileType` (`Grass = 0`, …). -/
def MapTileType.to_u16 : MapTileType → ℕ
  | MapTileType.Grass => 0
  | MapTileType.Desert => 1
  | MapTileType.Water => 2
  | MapTileType.Rock => 3
  | MapTileType.Sand => 4

/-- `GameMap` in src/src/map_loader.rs (`tiles: Vec<Vec<MapTileType>>`). -/
structure GameMap where
  tiles : List (List MapTileType)
deriving DecidableEq

/-- `GameMap::new`: a MAP_SIZE × MAP_SIZE grid of Grass. -/
def GameMap.new : GameMap :=
  ⟨List.replicate MAP_SIZE (List.replicate MAP_SIZE MapTileType.Grass)⟩

/-- `GameMap::get_tile`: the in-range branch indexes `tiles[z][x]` (total on
grids built by `new` / `load_from_file`; absent entries are modelled by the
`getD` defaults, which are never hit on those grids); the out-of-range
branch returns `Grass`, as the source comments say, for out of bounds. -/
def GameMap.get_tile (m : GameMap) (x z : ℕ) : MapTileType :=
  if x < MAP_SIZE ∧ z < MAP_SIZE then
    (m.tiles.getD z []).getD x MapTileType.Grass
  else
    MapTileType.Grass

/-- Little-endian u16 from two bytes, `u16::from_le_bytes([b0, b1])`. -/
def u16_from_le_bytes (b0 b1 : ℕ) : ℕ := b0 + 256 * b1

/-- `GameMap::load_from_file`, modelled on the byte buffer read from the
file (the `file.read_to_end` result): any size other than
`MAP_SIZE * MAP_SIZE * 2` is rejected with an error. -/
def GameMap.load_from_file (buffer : List ℕ) : Except String GameMap :=
  if buffer.length ≠ MAP_SIZE * MAP_SIZE * 2 then
    Except.error "Invalid map file size"
  else
    Except.ok ⟨(List.range MAP_SIZE).map (fun z =>
      (List.range MAP_SIZE).map (fun x =>
        MapTileType.from_u16
          (u16_from_le_bytes (buffer.getD ((z * MAP_SIZE + x) * 2) 0)
            (buffer.getD ((z * MAP_SIZE + x) * 2 + 1) 0))))⟩

/-! ## World data, tile fetch, chunk decomposer (src/src/{resources,world}.rs)

`get_tile_at_position` and `generate_chunk_from_map` are written in the
source against the fixed constants MAP_WIDTH / MAP_HEIGHT / CHUNK_SIZE;
here each is split into a version parametric in those three values (the
`..P` form, so that the spec's small-grid scenarios can be instantiated)
plus the instance at the game's constants, which is the source function. -/

/-- `WorldData` (src/src/resources.rs); only the backing tile sequence is
carried here, the resident-chunk map and the explored set are modelled by
`StreamState` below. -/
structure WorldData where
  tiles : List TileType

/-- `get_tile_at_position` (src/src/world.rs lines 84-92), parametric in the
map bounds. In range, index `(y * mapW + x) as usize` is checked against
the tiles length; everything else falls through to `Unknown`. -/
def get_tile_at_positionP (mapW mapH : ℤ) (tiles : List TileType) (x y : ℤ) : TileType :=
  if 0 ≤ x ∧ x < mapW ∧ 0 ≤ y ∧ y < mapH then
    let index := (y * mapW + x).toNat
    if h : index < tiles.length then
      tiles.get ⟨index, h⟩
    else
      TileType.Unknown
  else
    TileType.Unknown

/-- `get_tile_at_position` at the game's constants. -/
def get_tile_at_position (world_data : WorldData) (x y : ℤ) : TileType :=
  get_tile_at_positionP MAP_WIDTH MAP_HEIGHT world_data.tiles x y

/-- `ChunkData` (src/src/resources.rs): a chunk coordinate plus a
CHUNK_SIZE × CHUNK_SIZE tile array, stored row-major (`tiles[y][x]`),
modelled as a list of rows. -/
structure ChunkData where
  position : ℤ × ℤ
  tiles : List (List TileType)

/-- Local tile accessor: `chunk_data.tiles[y][x]`, `Unknown` past the fixed
extent (never hit on chunks produced by the decomposer). -/
def ChunkData.tile (cd : ChunkData) (y x : ℕ) : TileType :=
  (cd.tiles.getD y []).getD x TileType.Unknown

/-- `generate_chunk_from_map` (src/src/world.rs lines 94-111), parametric in
the bounds and chunk size: row `y`, column `x` holds the grid tile at world
coordinate `(chunk_pos.x * cs + x, chunk_pos.y * cs + y)`. -/
def generate_chunk_from_mapP (mapW mapH cs : ℤ) (tiles : List TileType)
    (chunk_pos : ℤ × ℤ) : Option ChunkData :=
  let start_x := chunk_pos.1 * cs
  let start_y := chunk_pos.2 * cs
  some
    { position := chunk_pos
      tiles := (List.range cs.toNat).map (fun (y : ℕ) =>
        (List.range cs.toNat).map (fun (x : ℕ) =>
          get_tile_at_positionP mapW mapH tiles
            (start_x + (x : ℤ)) (start_y + (y : ℤ)))) }

/-- `generate_chunk_from_map` at the game's constants. -/
def generate_chunk_from_map (world_data : WorldData) (chunk_pos : ℤ × ℤ) :
    Option ChunkData :=
  generate_chunk_from_mapP MAP_WIDTH MAP_HEIGHT CHUNK_SIZE world_data.tiles chunk_pos

/-! ## Streaming window manager (src/src/world.rs, `manage_world_chunks`)

The state tracked is the key set of `world_data.chunks` together with the
positions of the live `ChunkEntity` parents; both sets are finite sets of
chunk coordinates (a HashMap key set holds no duplicates, and a chunk
entity is only ever spawned under the `!world_data.chunks.contains_key`
guard with the matching map insert in the same step, so positions of live
entities are pairwise distinct whenever the two sets agree). The render
radius is kept parametric; the game runs the system at
`R = RENDER_DISTANCE`. -/

structure StreamState where
  resident : Finset (ℤ × ℤ)
  entities : Finset (ℤ × ℤ)

/-- `max_chunk_x` / `max_chunk_y` bounds check (lines 50-54):
`chunk_pos.x >= 0 && chunk_pos.x < MAP_WIDTH / CHUNK_SIZE && ...`. -/
def chunk_in_bounds (c : ℤ × ℤ) : Bool :=
  0 ≤ c.1 ∧ c.1 < MAP_WIDTH / CHUNK_SIZE ∧ 0 ≤ c.2 ∧ c.2 < MAP_HEIGHT / CHUNK_SIZE

/-- `chunks_to_keep`: every `player_chunk + (x, z)` for
`x, z in -R..=R` (inserted before the bounds check, lines 44-47). -/
def chunks_to_keep (player_chunk : ℤ × ℤ) (r : ℤ) : Finset (ℤ × ℤ) :=
  (Finset.Icc (-r) r ×ˢ Finset.Icc (-r) r).image
    (fun d => (player_chunk.1 + d.1, player_chunk.2 + d.2))

/-- The coordinates generated, spawned and registered in this run: in the
window, inside world boundaries, and not already resident (lines 49-60;
`generate_chunk_from_map` always returns `Some`, so the insert happens). -/
def built_set (s : StreamState) (player_chunk : ℤ × ℤ) (r : ℤ) : Finset (ℤ × ℤ) :=
  ((chunks_to_keep player_chunk r).filter (fun c => chunk_in_bounds c)).filter
    (fun c => c ∉ s.resident)

/-- The coordinates despawned in this run: positions of pre-existing chunk
entities not contained in `chunks_to_keep` (lines 65-71; entities spawned
through `Commands` this run are not visible to the query). -/
def evicted_set (s : StreamState) (player_chunk : ℤ × ℤ) (r : ℤ) : Finset (ℤ × ℤ) :=
  s.entities.filter (fun c => c ∉ chunks_to_keep player_chunk r)

/-- One run of `manage_world_chunks` (src/src/world.rs lines 23-73) at
viewer chunk `player_chunk` and radius `r`: the map gains the built
coordinates and drops evicted ones, the entity set drops evicted positions
and gains the spawned ones. -/
def manage_world_chunks (s : StreamState) (player_chunk : ℤ × ℤ) (r : ℤ) :
    StreamState :=
  let built := built_set s player_chunk r
  let evicted := evicted_set s player_chunk r
  { resident := (s.resident ∪ built) \ evicted
    entities := (s.entities \ evicted) ∪ built }

/-! ## Chunk mesh builder (src/src/world.rs, `spawn_chunk` lines 113-230)

The vertex/index buffers accumulated by the tile loop of `spawn_chunk`.
The source pushes, per non-water tile, four vertex positions, four upward
normals, four copies of the tile color, the four corner UVs and six
indices forming two upward-wound triangles; water tiles are skipped by the
`continue`. The per-tile payloads are factored into `quad_*` definitions
carrying exactly the literals of the source. -/

structure MeshData where
  positions : List (ℚ × ℚ × ℚ)
  normals : List (ℚ × ℚ × ℚ)
  uvs : List (ℚ × ℚ)
  colors : List ColorRGBA
  indices : List ℕ
  vertex_count : ℕ
deriving DecidableEq, Repr

def emptyMesh : MeshData := ⟨[], [], [], [], [], 0⟩

/-- The four quad corners of tile `(x, y)`: bottom-left, bottom-right,
top-right, top-left, at height 0,
with `x_pos = x as f32 * TILE_SIZE`, `z_pos = y as f32 * TILE_SIZE`. -/
def quad_positions (x y : ℕ) : List (ℚ × ℚ × ℚ) :=
  [((x : ℚ) * TILE_SIZE, 0, (y : ℚ) * TILE_SIZE),
   ((x : ℚ) * TILE_SIZE + TILE_SIZE, 0, (y : ℚ) * TILE_SIZE),
   ((x : ℚ) * TILE_SIZE + TILE_SIZE, 0, (y : ℚ) * TILE_SIZE + TILE_SIZE),
   ((x : ℚ) * TILE_SIZE, 0, (y : ℚ) * TILE_SIZE + TILE_SIZE)]

/-- The upward normal `[0.0, 1.0, 0.0]` shared by the quad's vertices. -/
def up_normal : ℚ × ℚ × ℚ := (0, 1, 0)

/-- The quad UVs `[[0,0],[1,0],[1,1],[0,1]]`. -/
def quad_uvs : List (ℚ × ℚ) := [(0, 0), (1, 0), (1, 1), (0, 1)]

/-- The six indices of the quad's two triangles, based at `vertex_count`. -/
def quad_indices (n : ℕ) : List ℕ := [n, n + 2, n + 1, n, n + 3, n + 2]

/-- The body of the tile loop for one tile: skip water, otherwise append
one quad's worth of vertex data and advance `vertex_count` by 4
(`vertex_count` is u32 in the source; it reaches at most
4 * CHUNK_SIZE² = 1024, far below wrap-around). -/
def emit_tile (m : MeshData) (x y : ℕ) (tile_type : TileType) : MeshData :=
  if tile_type = TileType.Water then m
  else
    { positions := m.positions ++ quad_positions x y
      normals := m.normals ++ List.replicate 4 up_normal
      uvs := m.uvs ++ quad_uvs
      colors := m.colors ++ List.replicate 4 tile_type.get_color
      indices := m.indices ++ quad_indices m.vertex_count
      vertex_count := m.vertex_count + 4 }

/-- The full tile loop of `spawn_chunk`: `for y in 0..CHUNK_SIZE { for x in
0..CHUNK_SIZE { ... } }` over `chunk_data.tiles[y][x]`. -/
def build_chunk_mesh (chunk_data : ChunkData) : MeshData :=
  (List.range CHUNK_SIZE.toNat).foldl (fun m y =>
    (List.range CHUNK_SIZE.toNat).foldl (fun m x =>
      emit_tile m x y (chunk_data.tile y x)) m) emptyMesh

/-- What `spawn_chunk` registers: either the empty parent entity of a
water-only chunk (the `positions.is_empty()` branch) or the parent with the
chunk mesh child; both carry `Transform::from_xyz(chunk_world_x, 0.0,
chunk_world_z)` and the `ChunkEntity` coordinate. -/
inductive SpawnResult
  | placeholder (transform : ℚ × ℚ × ℚ) (coord : ℤ × ℤ)
  | meshed (transform : ℚ × ℚ × ℚ) (coord : ℤ × ℤ) (mesh : MeshData)
deriving DecidableEq, Repr

/-- `spawn_chunk` (src/src/world.rs lines 113-230), up to the
engine-owned handles: the mesh assembly and the registered parent entity. -/
def spawn_chunk (chunk_data : ChunkData) : SpawnResult :=
  let chunk_world_x : ℚ := (chunk_data.position.1 : ℚ) * (CHUNK_SIZE : ℚ) * TILE_SIZE
  let chunk_world_z : ℚ := (chunk_data.position.2 : ℚ) * (CHUNK_SIZE : ℚ) * TILE_SIZE
  let m := build_chunk_mesh chunk_data
  if m.positions = [] then
    SpawnResult.placeholder (chunk_world_x, 0, chunk_world_z) chunk_data.position
  else
    SpawnResult.meshed (chunk_world_x, 0, chunk_world_z) chunk_data.position m

/-! ## Deterministic decoration generator
(src/src/world.rs, `spawn_chunk_decorations` lines 295-378)

The 64-bit positional hash is `DefaultHasher` fed exactly the two i32
values `position.x * CHUNK_SIZE + i` and `position.y * CHUNK_SIZE + j` and
nothing else; it is kept abstract here as a function of those two written
values (its output is a u64, modelled as ℕ). Every property proved below
holds for every such hash function, which is precisely the shape the
source fixes: no clock, no counter, no per-run seed. -/

inductive DecorationKind
  | enemy
  | cactus
  | tree
deriving DecidableEq, Repr

/-- A spawned decoration child: its kind and its
`Transform::from_xyz` translation. -/
structure Placement where
  kind : DecorationKind
  translation : ℚ × ℚ × ℚ
deriving DecidableEq, Repr

/-- The body of the decoration loop for local tile `(i, j)` (outer loop
`i`, inner loop `j`, tile `chunk_data.tiles[j][i]`): a sporadic enemy on
any non-water tile, then the biome match arm. -/
def decorations_at (hash : ℤ → ℤ → ℕ) (chunk_data : ChunkData) (i j : ℕ) :
    List Placement :=
  let tile_type := chunk_data.tile j i
  let wx : ℤ := chunk_data.position.1 * CHUNK_SIZE + i
  let wz : ℤ := chunk_data.position.2 * CHUNK_SIZE + j
  let h := hash wx wz
  let world_x : ℚ := (wx : ℚ) * TILE_SIZE
  let world_z : ℚ := (wz : ℚ) * TILE_SIZE
  (if tile_type ≠ TileType.Water ∧ h % 200 = 0 then
    [⟨DecorationKind.enemy, (world_x, 9/10, world_z)⟩] else []) ++
  (match tile_type with
   | TileType.Desert =>
       if h % 50 = 0 then [⟨DecorationKind.cactus, (world_x, 3/4, world_z)⟩] else []
   | TileType.Grass =>
       if h % 100 = 0 then [⟨DecorationKind.tree, (world_x, 1, world_z)⟩] else []
   | _ => [])

/-- `spawn_chunk_decorations`: the placements spawned as children of the
chunk parent, in loop order. -/
def spawn_chunk_decorations (hash : ℤ → ℤ → ℕ) (chunk_data : ChunkData) :
    List Placement :=
  (List.range CHUNK_SIZE.toNat).flatMap (fun i =>
    (List.range CHUNK_SIZE.toNat).flatMap (fun j =>
      decorations_at hash chunk_data i j))

/-! ## Startup map loading (src/src/setup.rs lines 13-31)

The `setup` system reads the map file through a `BufReader` two bytes at a
time: each full two-byte read pushes `TileType::from_u16` of the
little-endian value; a trailing single byte is read (`bytes_read == 1`) but
pushes nothing, and the following zero-byte read breaks the loop. On open
failure the tile vector is filled with `MAP_WIDTH * MAP_HEIGHT` Grass. The
file is modelled by `Option (List ℕ)` — `none` when `File::open` fails,
otherwise the byte sequence. -/

/-- The `while let Ok(bytes_read) = reader.read(&mut buffer)` loop. -/
def read_tiles_loop : List ℕ → List TileType
  | b0 :: b1 :: rest => TileType.from_u16 (u16_from_le_bytes b0 b1) :: read_tiles_loop rest
  | _ => []

/-- The map-loading portion of `setup`. -/
def setup_load_tiles : Option (List ℕ) → List TileType
  | some buffer => read_tiles_loop buffer
  | none => List.replicate (MAP_WIDTH * MAP_HEIGHT).toNat TileType.Grass

/-! ## Player movement clamp and viewer chunk derivation
(src/src/player.rs lines 140-158, src/src/world.rs lines 32-39)

Every branch of `player_movement` that writes `transform.translation`
writes `Vec3::new(new_pos.x.clamp(0.0, max_pos_x), 0.5,
new_pos.z.clamp(0.0, max_pos_z))` — both the early-return arm of the
isometric match (lines 74-89) and the shared tail after the camera-view
match (lines 145-158) — and when `direction.length() == 0` the translation
is left untouched. One step is therefore: either no change, or clamp of
the displaced position. The displacement `direction * speed * dt` is an
arbitrary pair here. All arithmetic on the clamped path is exact in f32
at these magnitudes (addition may round, but rounding commutes with the
subsequent clamp bound checks; division by CHUNK_SIZE * TILE_SIZE = 16 is
a power-of-two scale and exact; the bounds 0, 4095, 255.9375 are exactly
representable), so ℚ is a faithful model. -/

def max_pos_x : ℚ := ((MAP_WIDTH : ℚ) - 1) * TILE_SIZE
def max_pos_z : ℚ := ((MAP_HEIGHT : ℚ) - 1) * TILE_SIZE

/-- `f32::clamp(self, lo, hi)` for `lo ≤ hi`. -/
def clampQ (v lo hi : ℚ) : ℚ := min (max v lo) hi

/-- One `player_movement` frame's effect on the XZ translation. -/
def player_movement_step (pos : ℚ × ℚ) (delta : ℚ × ℚ) (moving : Bool) : ℚ × ℚ :=
  if moving then
    (clampQ (pos.1 + delta.1) 0 max_pos_x, clampQ (pos.2 + delta.2) 0 max_pos_z)
  else
    pos

/-- The player spawn translation of `setup` (lines 68-74):
`(MAP_WIDTH as f32 / 2.0, _, MAP_HEIGHT as f32 / 2.0)`. -/
def player_start : ℚ × ℚ := ((MAP_WIDTH : ℚ) / 2, (MAP_HEIGHT : ℚ) / 2)

/-- The truncating `as i32` cast on a finite float value (round toward
zero), on the ℚ model: truncated division of numerator by denominator. -/
def trunc_to_i32 (q : ℚ) : ℤ := Int.tdiv q.num (q.den : ℤ)

/-- The viewer chunk coordinate computed by `manage_world_chunks` lines
33-36: `(translation.x / (CHUNK_SIZE as f32 * TILE_SIZE)) as i32` per axis. -/
def viewer_chunk (pos : ℚ × ℚ) : ℤ × ℤ :=
  (trunc_to_i32 (pos.1 / ((CHUNK_SIZE : ℚ) * TILE_SIZE)),
   trunc_to_i32 (pos.2 / ((CHUNK_SIZE : ℚ) * TILE_SIZE)))

/-- The in-bounds region the clamp establishes for the XZ translation. -/
def in_play_region (pos : ℚ × ℚ) : Prop :=
  0 ≤ pos.1 ∧ pos.1 ≤ max_pos_x ∧ 0 ≤ pos.2 ∧ pos.2 ≤ max_pos_z

/-! ## Helper lemmas -/

theorem mem_chunks_to_keep (c v : ℤ × ℤ) (r : ℤ) :
    c ∈ chunks_to_keep v r ↔ |c.1 - v.1| ≤ r ∧ |c.2 - v.2| ≤ r := by
  obtain ⟨c1, c2⟩ := c
  obtain ⟨v1, v2⟩ := v
  simp only [chunks_to_keep, Finset.mem_image, Finset.mem_product, Finset.mem_Icc,
    Prod.exists, Prod.mk.injEq, abs_le]
  constructor
  · rintro ⟨a, b, ⟨⟨h1, h2⟩, h3, h4⟩, he1, he2⟩
    omega
  · rintro ⟨⟨h1, h2⟩, h3, h4⟩
    exact ⟨c1 - v1, c2 - v2, ⟨⟨by omega, by omega⟩, by omega, by omega⟩, by omega, by omega⟩

theorem chunk_in_bounds_iff (c : ℤ × ℤ) :
    chunk_in_bounds c = true ↔
      0 ≤ c.1 ∧ c.1 < MAP_WIDTH / CHUNK_SIZE ∧ 0 ≤ c.2 ∧ c.2 < MAP_HEIGHT / CHUNK_SIZE := by
  simp [chunk_in_bounds]

theorem mem_manage_resident (s : StreamState) (v : ℤ × ℤ) (r : ℤ)
    (hent : s.entities = s.resident)
    (hb : ∀ c ∈ s.resident, chunk_in_bounds c = true) (c : ℤ × ℤ) :
    c ∈ (manage_world_chunks s v r).resident ↔
      c ∈ chunks_to_keep v r ∧ chunk_in_bounds c = true := by
  simp only [manage_world_chunks, built_set, evicted_set, Finset.mem_sdiff,
    Finset.mem_union, Finset.mem_filter, hent]
  constructor
  · rintro ⟨h1 | ⟨⟨hk, hbnd⟩, _⟩, h2⟩
    · push_neg at h2
      exact ⟨h2 h1, hb c h1⟩
    · exact ⟨hk, hbnd⟩
  · rintro ⟨hk, hbnd⟩
    by_cases hc : c ∈ s.resident
    · exact ⟨Or.inl hc, by push_neg; intro _; exact hk⟩
    · exact ⟨Or.inr ⟨⟨hk, hbnd⟩, hc⟩, by push_neg; intro hc2; exact absurd hc2 hc⟩

theorem mem_manage_entities (s : StreamState) (v : ℤ × ℤ) (r : ℤ)
    (hent : s.entities = s.resident)
    (hb : ∀ c ∈ s.resident, chunk_in_bounds c = true) (c : ℤ × ℤ) :
    c ∈ (manage_world_chunks s v r).entities ↔
      c ∈ chunks_to_keep v r ∧ chunk_in_bounds c = true := by
  simp only [manage_world_chunks, built_set, evicted_set, Finset.mem_union,
    Finset.mem_sdiff, Finset.mem_filter, hent]
  constructor
  · rintro (⟨h1, h2⟩ | ⟨⟨hk, hbnd⟩, _⟩)
    · push_neg at h2
      exact ⟨h2 h1, hb c h1⟩
    · exact ⟨hk, hbnd⟩
  · rintro ⟨hk, hbnd⟩
    by_cases hc : c ∈ s.resident
    · exact Or.inl ⟨hc, by push_neg; intro _; exact hk⟩
    · exact Or.inr ⟨⟨hk, hbnd⟩, hc⟩

/-! ## Claim theorems -/

/-- C1: for every viewer chunk coordinate `v` and render radius `r`, one run
of `manage_world_chunks` on a state satisfying the residency invariant (the
chunk-map key set and the live entity positions agree and lie in bounds)
leaves resident exactly the square window of radius `r` around `v` clipped
to `[0, MAP_WIDTH/CHUNK_SIZE) × [0, MAP_HEIGHT/CHUNK_SIZE)`; the entity
positions coincide with the map keys (so no coordinate is duplicated — both
are finite sets), and no out-of-bounds coordinate is resident. -/
theorem manage_world_chunks_window (s : StreamState) (v : ℤ × ℤ) (r : ℤ)
    (hent : s.entities = s.resident)
    (hb : ∀ c ∈ s.resident, chunk_in_bounds c = true) :
    (∀ c : ℤ × ℤ, c ∈ (manage_world_chunks s v r).resident ↔
      (|c.1 - v.1| ≤ r ∧ |c.2 - v.2| ≤ r ∧
       0 ≤ c.1 ∧ c.1 < MAP_WIDTH / CHUNK_SIZE ∧
       0 ≤ c.2 ∧ c.2 < MAP_HEIGHT / CHUNK_SIZE)) ∧
    (manage_world_chunks s v r).entities = (manage_world_chunks s v r).resident ∧
    (∀ c ∈ (manage_world_chunks s v r).resident, chunk_in_bounds c = true) := by
  refine ⟨fun c => ?_, ?_, fun c hc => ?_⟩
  · rw [mem_manage_resident s v r hent hb c, mem_chunks_to_keep, chunk_in_bounds_iff]
    tauto
  · ext c
    rw [mem_manage_entities s v r hent hb c, mem_manage_resident s v r hent hb c]
  · exact ((mem_manage_resident s v r hent hb c).mp hc).2

/-- Witness for C1 at the empty initial state, viewer chunk (5,5), radius 1
(Scenario B of the spec). -/
theorem manage_world_chunks_window_witness :
    ((⟨∅, ∅⟩ : StreamState).entities = (⟨∅, ∅⟩ : StreamState).resident) ∧
    (∀ c ∈ (⟨∅, ∅⟩ : StreamState).resident, chunk_in_bounds c = true) ∧
    ((4, 4) ∈ (manage_world_chunks ⟨∅, ∅⟩ (5, 5) 1).resident ↔
      (|(4 : ℤ) - 5| ≤ 1 ∧ |(4 : ℤ) - 5| ≤ 1 ∧
       0 ≤ (4 : ℤ) ∧ (4 : ℤ) < MAP_WIDTH / CHUNK_SIZE ∧
       0 ≤ (4 : ℤ) ∧ (4 : ℤ) < MAP_HEIGHT / CHUNK_SIZE)) :=
  ⟨rfl, by simp,
    (manage_world_chunks_window ⟨∅, ∅⟩ (5, 5) 1 rfl (by simp)).1 (4, 4)⟩

/-- C2: in a window recompute, a coordinate that is already resident and still
inside the window is neither rebuilt (`built_set` is exactly the in-bounds
window coordinates not already resident) nor despawned (`evicted_set` is
exactly the live positions that left the window), and it stays resident;
and in the concrete move from viewer chunk (5,5) to (6,5) with radius 1,
exactly column x = 4 is evicted, exactly column x = 7 is built, and the six
overlap coordinates stay resident untouched. -/
theorem manage_world_chunks_incremental :
    (∀ (s : StreamState) (v : ℤ × ℤ) (r : ℤ) (c : ℤ × ℤ),
      s.entities = s.resident →
      c ∈ s.resident → c ∈ chunks_to_keep v r →
        c ∉ built_set s v r ∧ c ∉ evicted_set s v r ∧
        c ∈ (manage_world_chunks s v r).resident ∧
        c ∈ (manage_world_chunks s v r).entities) ∧
    (∀ (s : StreamState) (v : ℤ × ℤ) (r : ℤ) (c : ℤ × ℤ),
      c ∈ built_set s v r ↔
        c ∈ chunks_to_keep v r ∧ chunk_in_bounds c = true ∧ c ∉ s.resident) ∧
    (∀ (s : StreamState) (v : ℤ × ℤ) (r : ℤ) (c : ℤ × ℤ),
      c ∈ evicted_set s v r ↔ c ∈ s.entities ∧ c ∉ chunks_to_keep v r) ∧
    (evicted_set (manage_world_chunks ⟨∅, ∅⟩ (5, 5) 1) (6, 5) 1 =
        {(4, 4), (4, 5), (4, 6)} ∧
     built_set (manage_world_chunks ⟨∅, ∅⟩ (5, 5) 1) (6, 5) 1 =
        {(7, 4), (7, 5), (7, 6)} ∧
     ∀ c ∈ ({(5, 4), (5, 5), (5, 6), (6, 4), (6, 5), (6, 6)} : Finset (ℤ × ℤ)),
       c ∈ (manage_world_chunks ⟨∅, ∅⟩ (5, 5) 1).resident ∧
       c ∉ built_set (manage_world_chunks ⟨∅, ∅⟩ (5, 5) 1) (6, 5) 1 ∧
       c ∉ evicted_set (manage_world_chunks ⟨∅, ∅⟩ (5, 5) 1) (6, 5) 1 ∧
       c ∈ (manage_world_chunks (manage_world_chunks ⟨∅, ∅⟩ (5, 5) 1) (6, 5) 1).resident) := by
  refine ⟨?_, ?_, ?_, by decide, by decide, by decide⟩
  · intro s v r c hent hres hkeep
    refine ⟨?_, ?_, ?_, ?_⟩
    · simp only [built_set, Finset.mem_filter, not_and]
      intro _ h
      exact absurd hres h
    · simp only [evicted_set, Finset.mem_filter, not_and]
      intro _
      simp [hkeep]
    · simp only [manage_world_chunks, Finset.mem_sdiff, Finset.mem_union, evicted_set,
        Finset.mem_filter]
      exact ⟨Or.inl hres, by simp [hkeep]⟩
    · simp only [manage_world_chunks, Finset.mem_union, Finset.mem_sdiff, evicted_set,
        Finset.mem_filter, hent]
      exact Or.inl ⟨hres, by simp [hkeep]⟩
  · intro s v r c
    simp only [built_set, Finset.mem_filter]
    tauto
  · intro s v r c
    simp only [evicted_set, Finset.mem_filter]

/-- Witness for C2: the overlap coordinate (5,4) of Scenario D, with the
first conjunct's hypotheses discharged at the post-(5,5) state. -/
theorem manage_world_chunks_incremental_witness :
    ((manage_world_chunks ⟨∅, ∅⟩ (5, 5) 1).entities =
      (manage_world_chunks ⟨∅, ∅⟩ (5, 5) 1).resident ∧
     (5, 4) ∈ (manage_world_chunks ⟨∅, ∅⟩ (5, 5) 1).resident ∧
     (5, 4) ∈ chunks_to_keep (6, 5) 1) ∧
    (5, 4) ∉ built_set (manage_world_chunks ⟨∅, ∅⟩ (5, 5) 1) (6, 5) 1 ∧
    (5, 4) ∉ evicted_set (manage_world_chunks ⟨∅, ∅⟩ (5, 5) 1) (6, 5) 1 :=
  ⟨⟨by decide, by decide, by decide⟩,
    (manage_world_chunks_incremental.1 (manage_world_chunks ⟨∅, ∅⟩ (5, 5) 1)
      (6, 5) 1 (5, 4) (by decide) (by decide) (by decide)).1,
    (manage_world_chunks_incremental.1 (manage_world_chunks ⟨∅, ∅⟩ (5, 5) 1)
      (6, 5) 1 (5, 4) (by decide) (by decide) (by decide)).2.1⟩

theorem getD_range_map {α : Type} (n k : ℕ) (f : ℕ → α) (d : α) (h : k < n) :
    ((List.range n).map f).getD k d = f k := by
  rw [List.getD_eq_getElem?_getD]
  simp [List.getElem?_map, List.getElem?_range, h]

/-- The 4×4 grid of Scenario A: all Grass except world tile (2,2) = Water
(row-major, index y*4+x, so index 10). -/
def scenario_grid : List TileType :=
  [TileType.Grass, TileType.Grass, TileType.Grass, TileType.Grass,
   TileType.Grass, TileType.Grass, TileType.Grass, TileType.Grass,
   TileType.Grass, TileType.Grass, TileType.Water, TileType.Grass,
   TileType.Grass, TileType.Grass, TileType.Grass, TileType.Grass]

/-- C5: the chunk decomposer always succeeds, and the produced ChunkData's
local entry at offsets `(lx, ly)` is exactly the grid fetch at world
coordinate `(chunk.x * cs + lx, chunk.y * cs + ly)`, with out-of-range
fetches resolving to `Unknown` rather than failing; and Scenario A — a 4×4
all-Grass grid with world tile (2,2) = Water, chunk size 4, chunk (0,0) —
produces the ChunkData whose [2][2] local entry is Water and all other
entries Grass. -/
theorem generate_chunk_from_map_correct :
    (∀ (mapW mapH cs : ℤ) (tiles : List TileType) (pos : ℤ × ℤ),
      ∃ cd, generate_chunk_from_mapP mapW mapH cs tiles pos = some cd ∧
        cd.position = pos ∧
        ∀ lx ly : Fin cs.toNat,
          cd.tile ly lx =
            get_tile_at_positionP mapW mapH tiles
              (pos.1 * cs + (lx : ℕ)) (pos.2 * cs + (ly : ℕ))) ∧
    (∀ (mapW mapH : ℤ) (tiles : List TileType) (x y : ℤ),
      ¬ (0 ≤ x ∧ x < mapW ∧ 0 ≤ y ∧ y < mapH) →
        get_tile_at_positionP mapW mapH tiles x y = TileType.Unknown) ∧
    (∀ lx ly : Fin 4,
      ((generate_chunk_from_mapP 4 4 4 scenario_grid (0, 0)).getD
          ⟨(0, 0), []⟩).tile ly lx =
        if (lx : ℕ) = 2 ∧ (ly : ℕ) = 2 then TileType.Water else TileType.Grass) := by
  refine ⟨?_, ?_, by decide⟩
  · intro mapW mapH cs tiles pos
    refine ⟨_, rfl, rfl, ?_⟩
    intro lx ly
    show ((((List.range cs.toNat).map _).getD (ly : ℕ) []).getD (lx : ℕ) TileType.Unknown) = _
    rw [getD_range_map _ _ _ _ ly.isLt, getD_range_map _ _ _ _ lx.isLt]
  · intro mapW mapH tiles x y h
    simp only [get_tile_at_positionP, if_neg h]

/-- Witness for C5: the out-of-range conjunct at x = 5 on a 4-wide grid. -/
theorem generate_chunk_from_map_correct_witness :
    (¬ ((0 : ℤ) ≤ 5 ∧ (5 : ℤ) < 4 ∧ (0 : ℤ) ≤ 0 ∧ (0 : ℤ) < 4)) ∧
    get_tile_at_positionP 4 4 scenario_grid 5 0 = TileType.Unknown :=
  ⟨by decide,
    generate_chunk_from_map_correct.2.1 4 4 scenario_grid 5 0 (by decide)⟩

/-- C6 counterexample: the claim asks that every `from_u16` decoder in the
program map every value above 4 to `Unknown`, but the decoder of
src/src/map_loader.rs maps 999 to `Grass` (its enum has no Unknown variant
at all), whose canonical encoding is 0, not 999. -/
theorem map_tile_type_from_u16_counterexample :
    MapTileType.from_u16 999 = MapTileType.Grass ∧
    MapTileType.to_u16 (MapTileType.from_u16 999) = 0 := by
  decide

/-- C6 (amended): the game's decoder (src/src/resources.rs) and the CLI
visualizer's decoder (src/utils/src/main.rs) round-trip every value in
0..=4 through the canonical encoding, map every larger u16 to `Unknown`,
and agree on the encoding of every decoded value; `MapTileType::from_u16`
of src/src/map_loader.rs round-trips 0..=4 (through its repr(u16)
discriminants, which differ from the game's encoding above value 0) but
maps every larger value to `Grass`, not to an Unknown fallback. -/
theorem from_u16_round_trip (v : ℕ) (hv : v < 65536) :
    (v ≤ 4 →
      TileType.to_u16 (TileType.from_u16 v) = some v ∧
      Utils.TileType.to_u16 (Utils.TileType.from_u16 v) = some v ∧
      MapTileType.to_u16 (MapTileType.from_u16 v) = v) ∧
    (4 < v →
      TileType.from_u16 v = TileType.Unknown ∧
      Utils.TileType.from_u16 v = Utils.TileType.Unknown ∧
      MapTileType.from_u16 v = MapTileType.Grass) ∧
    TileType.to_u16 (TileType.from_u16 v) =
      Utils.TileType.to_u16 (Utils.TileType.from_u16 v) := by
  match v with
  | 0 => exact ⟨fun _ => by decide, fun h => absurd h (by decide), by decide⟩
  | 1 => exact ⟨fun _ => by decide, fun h => absurd h (by decide), by decide⟩
  | 2 => exact ⟨fun _ => by decide, fun h => absurd h (by decide), by decide⟩
  | 3 => exact ⟨fun _ => by decide, fun h => absurd h (by decide), by decide⟩
  | 4 => exact ⟨fun _ => by decide, fun h => absurd h (by decide), by decide⟩
  | (n + 5) =>
    exact ⟨fun h => absurd h (by omega), fun _ => ⟨rfl, rfl, rfl⟩, rfl⟩

/-- Witness for C6 at v = 2: Desert round-trips in both the game and the
CLI decoders, and at v = 7: all three catch-all arms. -/
theorem from_u16_round_trip_witness :
    ((2 : ℕ) < 65536 ∧ (2 : ℕ) ≤ 4 ∧
      TileType.to_u16 (TileType.from_u16 2) = some 2) ∧
    ((7 : ℕ) < 65536 ∧ (4 : ℕ) < 7 ∧
      TileType.from_u16 7 = TileType.Unknown ∧
      MapTileType.from_u16 7 = MapTileType.Grass) :=
  ⟨⟨by decide, by decide, ((from_u16_round_trip 2 (by decide)).1 (by decide)).1⟩,
   ⟨by decide, by decide,
    ((from_u16_round_trip 7 (by decide)).2.1 (by decide)).1,
    ((from_u16_round_trip 7 (by decide)).2.1 (by decide)).2.2⟩⟩

/-- C7 counterexample: the claim asks that the tile fetch return `Unknown`
(and never `Grass`) whenever x ≥ map width, but `GameMap::get_tile` of
src/src/map_loader.rs returns `Grass` at x = MAP_SIZE on the freshly
constructed map. -/
theorem game_map_get_tile_counterexample :
    GameMap.new.get_tile MAP_SIZE 0 = MapTileType.Grass := by
  decide

/-- C7 (amended): the game's `get_tile_at_position` (src/src/world.rs)
returns `Unknown` — never a panic or out-of-bounds read, and never a
default tile — whenever the coordinate is negative, at least the map
extent, or indexes past the loaded tile sequence, and returns the stored
tile otherwise; `GameMap::get_tile` of src/src/map_loader.rs takes
unsigned coordinates and returns `Grass`, not an Unknown fallback, for
any coordinate at or beyond MAP_SIZE. -/
theorem get_tile_at_position_safe :
    (∀ (w : WorldData) (x y : ℤ),
      ((x < 0 ∨ MAP_WIDTH ≤ x ∨ y < 0 ∨ MAP_HEIGHT ≤ y ∨
          w.tiles.length ≤ (y * MAP_WIDTH + x).toNat) →
        get_tile_at_position w x y = TileType.Unknown) ∧
      (∀ (_hin : 0 ≤ x ∧ x < MAP_WIDTH ∧ 0 ≤ y ∧ y < MAP_HEIGHT)
         (hi : (y * MAP_WIDTH + x).toNat < w.tiles.length),
        get_tile_at_position w x y = w.tiles.get ⟨(y * MAP_WIDTH + x).toNat, hi⟩)) ∧
    (∀ (m : GameMap) (x z : ℕ),
      MAP_SIZE ≤ x ∨ MAP_SIZE ≤ z → m.get_tile x z = MapTileType.Grass) := by
  refine ⟨fun w x y => ⟨fun h => ?_, fun hin hi => ?_⟩, fun m x z h => ?_⟩
  · unfold get_tile_at_position get_tile_at_positionP
    rcases h with h | h | h | h | h
    · rw [if_neg (by omega)]
    · rw [if_neg (by omega)]
    · rw [if_neg (by omega)]
    · rw [if_neg (by omega)]
    · by_cases hin2 : 0 ≤ x ∧ x < MAP_WIDTH ∧ 0 ≤ y ∧ y < MAP_HEIGHT
      · rw [if_pos hin2, dif_neg (by omega)]
      · rw [if_neg hin2]
  · unfold get_tile_at_position get_tile_at_positionP
    rw [if_pos hin, dif_pos hi]
  · unfold GameMap.get_tile
    rw [if_neg (by omega)]

/-- Witness for C7: a negative x, an index past a short tile list, and an
in-range fetch, on a one-tile world; and the GameMap fallback at
x = MAP_SIZE. -/
theorem get_tile_at_position_safe_witness :
    get_tile_at_position ⟨[TileType.Water]⟩ (-1) 0 = TileType.Unknown ∧
    get_tile_at_position ⟨[TileType.Water]⟩ 1 0 = TileType.Unknown ∧
    get_tile_at_position ⟨[TileType.Water]⟩ 0 0 = TileType.Water ∧
    GameMap.new.get_tile 4096 4096 = MapTileType.Grass :=
  ⟨((get_tile_at_position_safe.1 ⟨[TileType.Water]⟩ (-1) 0).1 (by left; decide)),
   ((get_tile_at_position_safe.1 ⟨[TileType.Water]⟩ 1 0).1
      (by right; right; right; right; decide)),
   ((get_tile_at_position_safe.1 ⟨[TileType.Water]⟩ 0 0).2 (by decide) (by decide)),
   (get_tile_at_position_safe.2 GameMap.new 4096 4096 (by left; decide))⟩

theorem read_tiles_loop_length :
    ∀ bytes : List ℕ, (read_tiles_loop bytes).length = bytes.length / 2
  | [] => by simp [read_tiles_loop]
  | [_] => by simp [read_tiles_loop]
  | _ :: _ :: rest => by
    simp only [read_tiles_loop, List.length_cons, read_tiles_loop_length rest]
    omega

theorem read_tiles_loop_getD :
    ∀ (bytes : List ℕ) (k : ℕ), 2 * k + 1 < bytes.length →
      (read_tiles_loop bytes).getD k TileType.Unknown =
        TileType.from_u16
          (u16_from_le_bytes (bytes.getD (2 * k) 0) (bytes.getD (2 * k + 1) 0))
  | [], k, h => by simp at h
  | [_], k, h => by simp at h
  | b0 :: b1 :: rest, 0, _ => by
    simp [read_tiles_loop]
  | b0 :: b1 :: rest, (k + 1), h => by
    have hr : 2 * k + 1 < rest.length := by
      simp only [List.length_cons] at h
      omega
    have h2 : 2 * (k + 1) = (2 * k + 1) + 1 := by omega
    rw [h2]
    simp only [read_tiles_loop, List.getD_cons_succ]
    exact read_tiles_loop_getD rest k hr

/-- C8 counterexample: the claim asks that a file whose length is not
width·height·2 still be accepted as a partial load, but
`GameMap::load_from_file` of src/src/map_loader.rs rejects any such buffer
outright (here: the empty buffer). -/
theorem load_from_file_counterexample :
    GameMap.load_from_file [] = Except.error "Invalid map file size" := by
  unfold GameMap.load_from_file
  rw [if_pos (by decide)]

/-- C8 (amended): the game's startup loader (src/src/setup.rs) recovers
locally from both failure modes — an unopenable file yields the synthetic
uniform Grass grid at MAP_WIDTH·MAP_HEIGHT, and an opened file of any
length (truncated included) is accepted, loading one decoded tile per full
little-endian u16 (a trailing odd byte is dropped) so that every index
past the loaded prefix resolves to the `Unknown` default; the auxiliary
`GameMap::load_from_file` of src/src/map_loader.rs instead returns an
error for every buffer whose length differs from MAP_SIZE²·2. -/
theorem setup_map_load_recovery (bytes : List ℕ) (k : ℕ) :
    setup_load_tiles none =
      List.replicate (MAP_WIDTH * MAP_HEIGHT).toNat TileType.Grass ∧
    (setup_load_tiles (some bytes)).length = bytes.length / 2 ∧
    (2 * k + 1 < bytes.length →
      (setup_load_tiles (some bytes)).getD k TileType.Unknown =
        TileType.from_u16
          (u16_from_le_bytes (bytes.getD (2 * k) 0) (bytes.getD (2 * k + 1) 0))) ∧
    (bytes.length / 2 ≤ k →
      (setup_load_tiles (some bytes)).getD k TileType.Unknown = TileType.Unknown) ∧
    (bytes.length ≠ MAP_SIZE * MAP_SIZE * 2 →
      GameMap.load_from_file bytes = Except.error "Invalid map file size") := by
  refine ⟨rfl, read_tiles_loop_length bytes, read_tiles_loop_getD bytes k, ?_, ?_⟩
  · intro hk
    show (read_tiles_loop bytes).getD k TileType.Unknown = TileType.Unknown
    exact List.getD_eq_default _ _ (by rw [read_tiles_loop_length bytes]; exact hk)
  · intro hlen
    unfold GameMap.load_from_file
    rw [if_pos hlen]

/-- Witness for C8 on the 3-byte buffer [0, 0, 2]: one full u16 (value 0,
Grass) is loaded, the trailing byte is dropped, index 1 resolves to
Unknown, and the strict loader rejects the buffer. -/
theorem setup_map_load_recovery_witness :
    (2 * 0 + 1 < ([0, 0, 2] : List ℕ).length ∧
      (setup_load_tiles (some [0, 0, 2])).getD 0 TileType.Unknown = TileType.Grass) ∧
    (([0, 0, 2] : List ℕ).length / 2 ≤ 1 ∧
      (setup_load_tiles (some [0, 0, 2])).getD 1 TileType.Unknown = TileType.Unknown) ∧
    (([0, 0, 2] : List ℕ).length ≠ MAP_SIZE * MAP_SIZE * 2 ∧
      GameMap.load_from_file [0, 0, 2] = Except.error "Invalid map file size") :=
  ⟨⟨by decide, ((setup_map_load_recovery [0, 0, 2] 0).2.2.1 (by decide)).trans (by decide)⟩,
   ⟨by decide, (setup_map_load_recovery [0, 0, 2] 1).2.2.2.1 (by decide)⟩,
   ⟨by decide, (setup_map_load_recovery [0, 0, 2] 0).2.2.2.2 (by decide)⟩⟩

/-! ## Mesh builder characterization -/

/-- The tiles of a chunk in the walk order of the mesh loop: `y` outer,
`x` inner, as `(x, y, tiles[y][x])` triples. -/
def tile_walk (cd : ChunkData) : List (ℕ × ℕ × TileType) :=
  (List.range CHUNK_SIZE.toNat).flatMap (fun (y : ℕ) =>
    (List.range CHUNK_SIZE.toNat).map (fun (x : ℕ) => (x, y, cd.tile y x)))

/-- The walked tiles that receive geometry: everything but Water. -/
def non_water_tiles (cd : ChunkData) : List (ℕ × ℕ × TileType) :=
  (tile_walk cd).filter (fun p => p.2.2 ≠ TileType.Water)

/-- The index buffer of `k` consecutive quads starting at vertex `base`. -/
def indices_from : ℕ → ℕ → List ℕ
  | _, 0 => []
  | base, k + 1 => quad_indices base ++ indices_from (base + 4) k

theorem foldl_flatMap_fold {α β γ : Type} (l : List α) (g : α → List β)
    (f : γ → β → γ) (b : γ) :
    (l.flatMap g).foldl f b = l.foldl (fun acc a => (g a).foldl f acc) b := by
  induction l generalizing b with
  | nil => rfl
  | cons a l ih => simp [List.flatMap_cons, List.foldl_append, ih]

theorem build_chunk_mesh_walk (cd : ChunkData) :
    build_chunk_mesh cd =
      (tile_walk cd).foldl (fun m p => emit_tile m p.1 p.2.1 p.2.2) emptyMesh := by
  unfold build_chunk_mesh tile_walk
  rw [foldl_flatMap_fold]
  simp only [List.foldl_map]

theorem foldl_emit_tile (l : List (ℕ × ℕ × TileType)) (m : MeshData) :
    l.foldl (fun m p => emit_tile m p.1 p.2.1 p.2.2) m =
      { positions := m.positions ++
          (l.filter (fun p => p.2.2 ≠ TileType.Water)).flatMap
            (fun p => quad_positions p.1 p.2.1)
        normals := m.normals ++
          (l.filter (fun p => p.2.2 ≠ TileType.Water)).flatMap
            (fun _ => List.replicate 4 up_normal)
        uvs := m.uvs ++
          (l.filter (fun p => p.2.2 ≠ TileType.Water)).flatMap (fun _ => quad_uvs)
        colors := m.colors ++
          (l.filter (fun p => p.2.2 ≠ TileType.Water)).flatMap
            (fun p => List.replicate 4 (TileType.get_color p.2.2))
        indices := m.indices ++
          indices_from m.vertex_count
            (l.filter (fun p => p.2.2 ≠ TileType.Water)).length
        vertex_count := m.vertex_count +
          4 * (l.filter (fun p => p.2.2 ≠ TileType.Water)).length } := by
  induction l generalizing m with
  | nil => simp [indices_from]
  | cons p l ih =>
    rw [List.foldl_cons, ih]
    by_cases hw : p.2.2 = TileType.Water
    · simp [emit_tile, hw, List.filter_cons]
    · rw [List.filter_cons, if_pos (by simp [hw])]
      simp only [emit_tile, if_neg hw, List.flatMap_cons, List.length_cons]
      have hif : indices_from m.vertex_count
            ((l.filter (fun p => p.2.2 ≠ TileType.Water)).length + 1) =
          quad_indices m.vertex_count ++
            indices_from (m.vertex_count + 4)
              (l.filter (fun p => p.2.2 ≠ TileType.Water)).length := rfl
      rw [hif]
      simp only [MeshData.mk.injEq, List.append_assoc, true_and]
      omega

theorem build_chunk_mesh_spec (cd : ChunkData) :
    build_chunk_mesh cd =
      { positions := (non_water_tiles cd).flatMap (fun p => quad_positions p.1 p.2.1)
        normals := (non_water_tiles cd).flatMap (fun _ => List.replicate 4 up_normal)
        uvs := (non_water_tiles cd).flatMap (fun _ => quad_uvs)
        colors := (non_water_tiles cd).flatMap
          (fun p => List.replicate 4 (TileType.get_color p.2.2))
        indices := indices_from 0 (non_water_tiles cd).length
        vertex_count := 4 * (non_water_tiles cd).length } := by
  rw [build_chunk_mesh_walk, foldl_emit_tile]
  simp [emptyMesh, non_water_tiles]

theorem length_flatMap_const {α β : Type} (l : List α) (f : α → List β) (k : ℕ)
    (h : ∀ a, (f a).length = k) : (l.flatMap f).length = k * l.length := by
  induction l with
  | nil => simp
  | cons a l ih =>
    simp only [List.flatMap_cons, List.length_append, h, ih, List.length_cons]
    ring

theorem indices_from_length (base k : ℕ) : (indices_from base k).length = 6 * k := by
  induction k generalizing base with
  | zero => rfl
  | succ k ih =>
    simp only [indices_from, quad_indices, List.length_append, List.length_cons,
      List.length_nil, ih]
    omega

theorem indices_from_lt (base k : ℕ) :
    ∀ i ∈ indices_from base k, i < base + 4 * k := by
  induction k generalizing base with
  | zero => intro i hi; simp [indices_from] at hi
  | succ k ih =>
    intro i hi
    simp only [indices_from, List.mem_append] at hi
    rcases hi with hi | hi
    · simp only [quad_indices, List.mem_cons, List.not_mem_nil, or_false] at hi
      omega
    · have := ih (base + 4) i hi
      omega

/-- C4: the mesh loop walks all CHUNK_SIZE² tiles, emits nothing for Water
tiles, and for the non-Water tiles, in walk order, emits exactly one unit
quad each at height 0 — four positions, four upward normals, the four
corner UVs, four copies of the tile's fixed color — and two triangles per
quad, all in the chunk's single merged vertex/index buffer; a chunk whose
every tile is Water yields zero vertices, and `spawn_chunk` still registers
the placeholder parent carrying the chunk-world-origin transform and the
chunk coordinate. -/
theorem spawn_chunk_mesh_quads (cd : ChunkData) :
    (build_chunk_mesh cd).positions =
      (non_water_tiles cd).flatMap (fun p => quad_positions p.1 p.2.1) ∧
    (build_chunk_mesh cd).normals =
      (non_water_tiles cd).flatMap (fun _ => List.replicate 4 up_normal) ∧
    (build_chunk_mesh cd).uvs =
      (non_water_tiles cd).flatMap (fun _ => quad_uvs) ∧
    (build_chunk_mesh cd).colors =
      (non_water_tiles cd).flatMap
        (fun p => List.replicate 4 (TileType.get_color p.2.2)) ∧
    (build_chunk_mesh cd).indices = indices_from 0 (non_water_tiles cd).length ∧
    ((∀ y x : Fin CHUNK_SIZE.toNat, cd.tile y x = TileType.Water) →
      spawn_chunk cd =
        SpawnResult.placeholder
          ((cd.position.1 : ℚ) * (CHUNK_SIZE : ℚ) * TILE_SIZE, 0,
           (cd.position.2 : ℚ) * (CHUNK_SIZE : ℚ) * TILE_SIZE)
          cd.position) := by
  rw [build_chunk_mesh_spec]
  refine ⟨rfl, rfl, rfl, rfl, rfl, fun hall => ?_⟩
  have hnw : non_water_tiles cd = [] := by
    rw [non_water_tiles, List.filter_eq_nil_iff]
    intro p hp
    simp only [tile_walk, List.mem_flatMap, List.mem_map, List.mem_range] at hp
    obtain ⟨y, hy, x, hx, rfl⟩ := hp
    simp [hall ⟨y, hy⟩ ⟨x, hx⟩]
  have hpos : (build_chunk_mesh cd).positions = [] := by
    rw [build_chunk_mesh_spec, hnw]
    rfl
  unfold spawn_chunk
  rw [if_pos hpos]

/-- Witness for C4: the all-Water chunk at coordinate (0,0) registers only
the placeholder at the origin. -/
theorem spawn_chunk_mesh_quads_witness :
    (∀ y x : Fin CHUNK_SIZE.toNat,
      (ChunkData.mk (0, 0)
        (List.replicate 16 (List.replicate 16 TileType.Water))).tile y x =
        TileType.Water) ∧
    spawn_chunk
        (ChunkData.mk (0, 0) (List.replicate 16 (List.replicate 16 TileType.Water))) =
      SpawnResult.placeholder
        (((0 : ℤ) : ℚ) * (CHUNK_SIZE : ℚ) * TILE_SIZE, 0,
         ((0 : ℤ) : ℚ) * (CHUNK_SIZE : ℚ) * TILE_SIZE) (0, 0) :=
  ⟨by decide,
    (spawn_chunk_mesh_quads
      (ChunkData.mk (0, 0) (List.replicate 16 (List.replicate 16 TileType.Water)))).2.2.2.2.2
      (by decide)⟩

/-- C9: the four vertex-attribute buffers of the chunk mesh all have length
4k, the index buffer has length 6k, and every index is strictly below 4k,
where k is the number of non-Water tiles of the chunk — so no index refers
past the end of the vertex buffers. -/
theorem spawn_chunk_mesh_consistent (cd : ChunkData) :
    (build_chunk_mesh cd).positions.length = 4 * (non_water_tiles cd).length ∧
    (build_chunk_mesh cd).normals.length = 4 * (non_water_tiles cd).length ∧
    (build_chunk_mesh cd).uvs.length = 4 * (non_water_tiles cd).length ∧
    (build_chunk_mesh cd).colors.length = 4 * (non_water_tiles cd).length ∧
    (build_chunk_mesh cd).indices.length = 6 * (non_water_tiles cd).length ∧
    ((build_chunk_mesh cd).indices.all
        (fun i => decide (i < 4 * (non_water_tiles cd).length))) = true := by
  rw [build_chunk_mesh_spec]
  refine ⟨?_, ?_, ?_, ?_, ?_, ?_⟩
  · exact length_flatMap_const _ _ 4 (fun p => rfl)
  · exact length_flatMap_const _ _ 4 (fun p => rfl)
  · exact length_flatMap_const _ _ 4 (fun p => rfl)
  · exact length_flatMap_const _ _ 4 (fun p => rfl)
  · exact indices_from_length 0 _
  · rw [List.all_eq_true]
    intro i hi
    rw [decide_eq_true_eq]
    have := indices_from_lt 0 _ i hi
    omega

/-- C3: the decoration generator is a pure function of the chunk's tile
data and world tile coordinates — the positional hash is fed exactly
`(world_tile_x, world_tile_z)` and the properties below hold for every
such hash function (no clock or counter exists to feed it). Per tile:
an enemy marker is placed iff the tile is not Water and hash % 200 == 0, a
cactus iff the tile is Desert and hash % 50 == 0, a tree iff the tile is
Grass and hash % 100 == 0; Water tiles receive no decorations at all; and
two ChunkData with the same position and tiles (the same chunk data,
regenerated) yield the identical placement list. -/
theorem spawn_chunk_decorations_policy :
    (∀ (hash : ℤ → ℤ → ℕ) (cd : ChunkData) (i j : ℕ),
      (Placement.mk DecorationKind.enemy
          (((cd.position.1 * CHUNK_SIZE + (i : ℕ) : ℤ) : ℚ) * TILE_SIZE, 9/10,
           ((cd.position.2 * CHUNK_SIZE + (j : ℕ) : ℤ) : ℚ) * TILE_SIZE) ∈
          decorations_at hash cd i j ↔
        (cd.tile j i ≠ TileType.Water ∧
          hash (cd.position.1 * CHUNK_SIZE + (i : ℕ))
              (cd.position.2 * CHUNK_SIZE + (j : ℕ)) % 200 = 0)) ∧
      (Placement.mk DecorationKind.cactus
          (((cd.position.1 * CHUNK_SIZE + (i : ℕ) : ℤ) : ℚ) * TILE_SIZE, 3/4,
           ((cd.position.2 * CHUNK_SIZE + (j : ℕ) : ℤ) : ℚ) * TILE_SIZE) ∈
          decorations_at hash cd i j ↔
        (cd.tile j i = TileType.Desert ∧
          hash (cd.position.1 * CHUNK_SIZE + (i : ℕ))
              (cd.position.2 * CHUNK_SIZE + (j : ℕ)) % 50 = 0)) ∧
      (Placement.mk DecorationKind.tree
          (((cd.position.1 * CHUNK_SIZE + (i : ℕ) : ℤ) : ℚ) * TILE_SIZE, 1,
           ((cd.position.2 * CHUNK_SIZE + (j : ℕ) : ℤ) : ℚ) * TILE_SIZE) ∈
          decorations_at hash cd i j ↔
        (cd.tile j i = TileType.Grass ∧
          hash (cd.position.1 * CHUNK_SIZE + (i : ℕ))
              (cd.position.2 * CHUNK_SIZE + (j : ℕ)) % 100 = 0)) ∧
      (cd.tile j i = TileType.Water → decorations_at hash cd i j = [])) ∧
    (∀ (hash : ℤ → ℤ → ℕ) (cd cd2 : ChunkData),
      cd.position = cd2.position → cd.tiles = cd2.tiles →
      spawn_chunk_decorations hash cd = spawn_chunk_decorations hash cd2) := by
  constructor
  · intro hash cd i j
    rcases ht : cd.tile j i <;>
      by_cases h200 : hash (cd.position.1 * CHUNK_SIZE + (i : ℕ))
          (cd.position.2 * CHUNK_SIZE + (j : ℕ)) % 200 = 0 <;>
      by_cases h50 : hash (cd.position.1 * CHUNK_SIZE + (i : ℕ))
          (cd.position.2 * CHUNK_SIZE + (j : ℕ)) % 50 = 0 <;>
      by_cases h100 : hash (cd.position.1 * CHUNK_SIZE + (i : ℕ))
          (cd.position.2 * CHUNK_SIZE + (j : ℕ)) % 100 = 0 <;>
      refine ⟨?_, ?_, ?_, ?_⟩ <;>
      simp [decorations_at, ht, h200, h50, h100]
  · intro hash cd cd2 hpos htiles
    obtain ⟨p1, t1⟩ := cd
    obtain ⟨p2, t2⟩ := cd2
    simp only at hpos htiles
    subst hpos
    subst htiles
    rfl

/-- Witness for C3: on the all-Water chunk every tile yields the empty
placement list, and regenerating the all-Grass chunk yields the identical
list. -/
theorem spawn_chunk_decorations_policy_witness :
    ((ChunkData.mk (0, 0)
        (List.replicate 16 (List.replicate 16 TileType.Water))).tile 0 0 =
          TileType.Water ∧
      decorations_at (fun _ _ => 0)
        (ChunkData.mk (0, 0)
          (List.replicate 16 (List.replicate 16 TileType.Water))) 0 0 = []) ∧
    spawn_chunk_decorations (fun _ _ => 0)
        (ChunkData.mk (0, 0) (List.replicate 16 (List.replicate 16 TileType.Grass))) =
      spawn_chunk_decorations (fun _ _ => 0)
        (ChunkData.mk (0, 0) (List.replicate 16 (List.replicate 16 TileType.Grass))) :=
  ⟨⟨by decide,
    (spawn_chunk_decorations_policy.1 (fun _ _ => 0)
      (ChunkData.mk (0, 0)
        (List.replicate 16 (List.replicate 16 TileType.Water))) 0 0).2.2.2
      (by decide)⟩,
   spawn_chunk_decorations_policy.2 (fun _ _ => 0) _ _ rfl rfl⟩

theorem trunc_to_i32_eq_floor (q : ℚ) (h : 0 ≤ q) : trunc_to_i32 q = ⌊q⌋ := by
  unfold trunc_to_i32
  rw [Int.tdiv_eq_ediv (Rat.num_nonneg.mpr h) (Int.natCast_nonneg q.den)]
  exact Rat.floor_def.symm

/-- C10: every translation-writing update of `player_movement` clamps x and
z into [0, (MAP_WIDTH-1)·TILE_SIZE] × [0, (MAP_HEIGHT-1)·TILE_SIZE] (and a
non-moving update leaves the translation unchanged, hence in the region);
the spawn position is in the region; and on every position in the region
the viewer chunk derived by the truncating cast coincides with the floor
the spec prescribes and has both components inside
[0, MAP_WIDTH/CHUNK_SIZE) — in particular never negative. -/
theorem player_movement_clamp_viewer_chunk :
    in_play_region player_start ∧
    (∀ (pos delta : ℚ × ℚ) (moving : Bool),
      in_play_region pos → in_play_region (player_movement_step pos delta moving)) ∧
    (∀ pos : ℚ × ℚ, in_play_region pos →
      viewer_chunk pos =
        (⌊pos.1 / ((CHUNK_SIZE : ℚ) * TILE_SIZE)⌋,
         ⌊pos.2 / ((CHUNK_SIZE : ℚ) * TILE_SIZE)⌋) ∧
      0 ≤ (viewer_chunk pos).1 ∧ (viewer_chunk pos).1 < MAP_WIDTH / CHUNK_SIZE ∧
      0 ≤ (viewer_chunk pos).2 ∧ (viewer_chunk pos).2 < MAP_HEIGHT / CHUNK_SIZE) := by
  have hx : (0 : ℚ) ≤ max_pos_x := by
    norm_num [max_pos_x, MAP_WIDTH, CHUNK_SIZE, TILE_SIZE]
  have hz : (0 : ℚ) ≤ max_pos_z := by
    norm_num [max_pos_z, MAP_HEIGHT, CHUNK_SIZE, TILE_SIZE]
  have hc : ((CHUNK_SIZE : ℚ) * TILE_SIZE) = 16 := by
    norm_num [CHUNK_SIZE, TILE_SIZE]
  refine ⟨?_, ?_, ?_⟩
  · show (0 : ℚ) ≤ _ ∧ _ ≤ max_pos_x ∧ (0 : ℚ) ≤ _ ∧ _ ≤ max_pos_z
    norm_num [player_start, max_pos_x, max_pos_z, MAP_WIDTH, MAP_HEIGHT,
      CHUNK_SIZE, TILE_SIZE]
  · intro pos delta moving h
    unfold player_movement_step
    by_cases hm : moving = true
    · rw [if_pos hm]
      exact ⟨le_min (le_max_right _ _) hx, min_le_right _ _,
             le_min (le_max_right _ _) hz, min_le_right _ _⟩
    · rw [if_neg hm]
      exact h
  · intro pos h
    obtain ⟨h1, h2, h3, h4⟩ := h
    have hb1 : pos.1 ≤ 4095 := by
      have := h2
      rw [max_pos_x] at this
      norm_num [MAP_WIDTH, CHUNK_SIZE, TILE_SIZE] at this
      linarith
    have hb2 : pos.2 ≤ 4095 := by
      have := h4
      rw [max_pos_z] at this
      norm_num [MAP_HEIGHT, CHUNK_SIZE, TILE_SIZE] at this
      linarith
    have ha1 : (0 : ℚ) ≤ pos.1 / ((CHUNK_SIZE : ℚ) * TILE_SIZE) := by
      rw [hc]
      positivity
    have ha2 : (0 : ℚ) ≤ pos.2 / ((CHUNK_SIZE : ℚ) * TILE_SIZE) := by
      rw [hc]
      positivity
    have he1 := trunc_to_i32_eq_floor (pos.1 / ((CHUNK_SIZE : ℚ) * TILE_SIZE)) ha1
    have he2 := trunc_to_i32_eq_floor (pos.2 / ((CHUNK_SIZE : ℚ) * TILE_SIZE)) ha2
    have hl1 : pos.1 / ((CHUNK_SIZE : ℚ) * TILE_SIZE) < ((256 : ℤ) : ℚ) := by
      rw [hc, div_lt_iff₀ (by norm_num : (0 : ℚ) < 16)]
      push_cast
      linarith
    have hl2 : pos.2 / ((CHUNK_SIZE : ℚ) * TILE_SIZE) < ((256 : ℤ) : ℚ) := by
      rw [hc, div_lt_iff₀ (by norm_num : (0 : ℚ) < 16)]
      push_cast
      linarith
    have hq : MAP_WIDTH / CHUNK_SIZE = 256 := by decide
    have hq2 : MAP_HEIGHT / CHUNK_SIZE = 256 := by decide
    refine ⟨?_, ?_, ?_, ?_, ?_⟩
    · unfold viewer_chunk
      rw [he1, he2]
    · show 0 ≤ trunc_to_i32 _
      rw [he1]
      exact Int.floor_nonneg.mpr ha1
    · show trunc_to_i32 _ < MAP_WIDTH / CHUNK_SIZE
      rw [he1, hq]
      exact Int.floor_lt.mpr hl1
    · show 0 ≤ trunc_to_i32 _
      rw [he2]
      exact Int.floor_nonneg.mpr ha2
    · show trunc_to_i32 _ < MAP_HEIGHT / CHUNK_SIZE
      rw [he2, hq2]
      exact Int.floor_lt.mpr hl2

/-- Witness for C10 at the spawn position, moving by (1,1). -/
theorem player_movement_clamp_viewer_chunk_witness :
    in_play_region player_start ∧
    in_play_region (player_movement_step player_start (1, 1) true) ∧
    (0 ≤ (viewer_chunk player_start).1 ∧
      (viewer_chunk player_start).1 < MAP_WIDTH / CHUNK_SIZE ∧
      0 ≤ (viewer_chunk player_start).2 ∧
      (viewer_chunk player_start).2 < MAP_HEIGHT / CHUNK_SIZE) :=
  ⟨player_movement_clamp_viewer_chunk.1,
   player_movement_clamp_viewer_chunk.2.1 player_start (1, 1) true
     player_movement_clamp_viewer_chunk.1,
   (player_movement_clamp_viewer_chunk.2.2 player_start
     player_movement_clamp_viewer_chunk.1).2⟩

end Fortune
